import Mathlib

/-!
Verification of the restic-123pan repository core against its specification.

This file shallowly embeds the Rust source (src/pan123/client.rs,
src/restic/handler.rs, src/pan123/types.rs, src/pan123/entity.rs) in Lean.
The persistent SQLite index is modelled as a list of rows; each upstream
HTTP interaction is modelled by its decoded envelope, supplied as an
explicit oracle argument, so every operation is a pure function from the
oracle and the current index state to a result and a new state.
-/

namespace ResticPan

/-- A row of the `file_nodes` table (src/pan123/entity.rs, `Model`).
The `updated_at` timestamp column is omitted: it is written with the local
wall clock and never read by any operation under verification. -/
structure Model where
  file_id : Int
  parent_id : Int
  name : String
  is_dir : Bool
  size : Int
  etag : Option String
deriving DecidableEq

/-- The persistent index: the rows of `file_nodes`, in insertion order. -/
abbrev Db := List Model

/-- A file or folder as reported by the upstream (src/pan123/types.rs, `FileInfo`). -/
structure FileInfo where
  file_id : Int
  filename : String
  file_type : Int
  size : Int
  parent_file_id : Int
  trashed : Int
deriving DecidableEq

/-- Rust `FileInfo::is_folder`: `file_type == 1`. -/
def FileInfo.is_folder (f : FileInfo) : Bool := f.file_type == 1

/-- Rust `FileInfo::is_trashed`: `trashed == 1`. -/
def FileInfo.is_trashed (f : FileInfo) : Bool := f.trashed == 1

/-- The decoded upstream envelope without payload (`ApiResponse` code and message). -/
structure Envelope where
  code : Int
  message : String
deriving DecidableEq

/-- The application error type (src/error.rs, `AppError`), restricted to the
variants reachable from the embedded operations. -/
inductive AppError where
  | pan123Api (code : Int) (message : String)
  | notFound (message : String)
  | internal (message : String)
deriving DecidableEq

/-- Query `SELECT .. WHERE parent_id = p AND name = n LIMIT 1` (`.one` on those filters). -/
def dbFindChild (db : Db) (p : Int) (n : String) : Option Model :=
  db.find? (fun r => r.parent_id == p && r.name == n)

/-- Query `SELECT .. WHERE parent_id = p AND name = n AND is_dir = true LIMIT 1`,
the query used by `find_path_id`, `ensure_path` and `create_directory`. -/
def dbFindDirChild (db : Db) (p : Int) (n : String) : Option Model :=
  db.find? (fun r => (r.parent_id == p && r.name == n) && r.is_dir)

/-- A plain SQLite `INSERT`: fails on a primary-key (`file_id`) conflict or on a
conflict with the unique composite index `idx_parent_name` on (parent_id, name). -/
def dbInsert (db : Db) (r : Model) : Except AppError Db :=
  if db.any (fun x => x.file_id == r.file_id) then
    .error (.internal "UNIQUE constraint failed: file_nodes.file_id")
  else if db.any (fun x => x.parent_id == r.parent_id && x.name == r.name) then
    .error (.internal "UNIQUE constraint failed: idx_parent_name")
  else
    .ok (db ++ [r])

/-- Statement `INSERT .. ON CONFLICT(file_id) DO NOTHING`, used by the mkdir duplicate-name
fallback: a `file_id` conflict skips the row; a conflict on the (parent_id, name)
unique index is not covered by the conflict target and raises. -/
def dbInsertIgnoreFileId (db : Db) (r : Model) : Except AppError Db :=
  if db.any (fun x => x.file_id == r.file_id) then
    .ok db
  else if db.any (fun x => x.parent_id == r.parent_id && x.name == r.name) then
    .error (.internal "UNIQUE constraint failed: idx_parent_name")
  else
    .ok (db ++ [r])

/-- Statement `INSERT .. ON CONFLICT(parent_id, name) DO UPDATE SET file_id, parent_id,
name, size, etag, updated_at`, used by `upload_file`. On conflict the matching
row keeps its `is_dir` (not in the update column list) and takes the new
`file_id`, `size` and `etag`; a `file_id` primary-key conflict with a different
row raises. -/
def dbUpsertByParentName (db : Db) (r : Model) : Except AppError Db :=
  if db.any (fun x => x.parent_id == r.parent_id && x.name == r.name) then
    if db.any (fun x => !(x.parent_id == r.parent_id && x.name == r.name) && x.file_id == r.file_id) then
      .error (.internal "UNIQUE constraint failed: file_nodes.file_id")
    else
      .ok (db.map (fun x =>
        if x.parent_id == r.parent_id && x.name == r.name then
          { x with file_id := r.file_id, size := r.size, etag := r.etag }
        else x))
  else
    if db.any (fun x => x.file_id == r.file_id) then
      .error (.internal "UNIQUE constraint failed: file_nodes.file_id")
    else
      .ok (db ++ [r])

/-- Rust `Entity::delete_by_id(file_id)`: removes the row with that primary key. -/
def dbDeleteById (db : Db) (fileId : Int) : Db :=
  db.filter (fun r => r.file_id != fileId)

/-- Well-formedness maintained by the unique index `idx_parent_name`:
no two rows share (parent_id, name). -/
def dbWF (db : Db) : Prop :=
  db.Pairwise (fun a b => ¬(a.parent_id = b.parent_id ∧ a.name = b.name))

/-- The row-to-`FileInfo` projection used by `list_files` (client.rs, lines 293-303). -/
def modelToInfo (n : Model) : FileInfo :=
  { file_id := n.file_id
    filename := n.name
    file_type := if n.is_dir then 1 else 0
    size := n.size
    parent_file_id := n.parent_id
    trashed := 0 }

/-- Rust `Pan123Client::list_files(parent_id)`: all cached rows of that parent. -/
def list_files (db : Db) (parent_id : Int) : List FileInfo :=
  (db.filter (fun r => r.parent_id == parent_id)).map modelToInfo

/-- Rust `Pan123Client::find_file(parent_id, name)`: first listed entry with that name. -/
def find_file (db : Db) (parent_id : Int) (name : String) : Option FileInfo :=
  (list_files db parent_id).find? (fun f => f.filename == name)

/-- Splitting a character list at a separator, the character-level equivalent
of Rust's byte-slice split (all names handled here are ASCII). -/
def splitCharList (sep : Char) : List Char → List (List Char)
  | [] => [[]]
  | c :: cs =>
    let r := splitCharList sep cs
    if c == sep then [] :: r
    else
      match r with
      | h :: t => (c :: h) :: t
      | [] => [[c]]

/-- String splitting at a separator character, over the character list. -/
def strSplitOn (s : String) (sep : Char) : List String :=
  (splitCharList sep s.data).map String.mk

/-- Emptiness of a string, over the character list. -/
def strIsEmpty (s : String) : Bool :=
  s.data.isEmpty

/-- The first n characters of a string, over the character list. -/
def strTake (s : String) (n : Nat) : String :=
  String.mk (s.data.take n)

/-- All but the first n characters of a string, over the character list. -/
def strDrop (s : String) (n : Nat) : String :=
  String.mk (s.data.drop n)

/-- Whether the second string begins the first, over the character lists. -/
def strHasPfx (s pre : String) : Bool :=
  pre.data.isPrefixOf s.data

/-- Path segmentation used by `find_path_id`, `ensure_path` and `warm_cache`:
trim leading and trailing slashes, split on the remaining slashes and drop
empty segments. Splitting first and dropping empties yields the same list. -/
def pathParts (path : String) : List String :=
  (strSplitOn path '/').filter (fun s => !(strIsEmpty s))

/-- The walk of `find_path_id` from a given current directory id. -/
def findPathIdFrom (db : Db) : Int → List String → Option Int
  | cur, [] => some cur
  | cur, part :: rest =>
    match dbFindDirChild db cur part with
    | some node => findPathIdFrom db node.file_id rest
    | none => none

/-- Rust `Pan123Client::find_path_id(path)`: walk the cached tree from root id 0. -/
def find_path_id (db : Db) (path : String) : Option Int :=
  findPathIdFrom db 0 (pathParts path)

/-- The payload of a successful mkdir envelope (`CreateDirData`). -/
structure CreateDirData where
  dirID : Int
deriving DecidableEq

/-- A decoded mkdir response: envelope plus optional payload. -/
structure MkdirResp where
  code : Int
  message : String
  data : Option CreateDirData
deriving DecidableEq

/-- The upstream oracle: the decoded mkdir response for each (parent, name)
request, and the raw aggregated page contents for each directory listing
request. With no interleaved operations the upstream state, and hence the
oracle, is the same across consecutive calls. -/
structure Upstream where
  mkdir : Int → String → MkdirResp
  listing : Int → List FileInfo

/-- Rust `Pan123Client::fetch_files_from_api(parent_id)`: the paginated listing,
aggregated, with trashed entries filtered out (client.rs, lines 308-362). -/
def fetch_files_from_api (u : Upstream) (parent_id : Int) : List FileInfo :=
  (u.listing parent_id).filter (fun f => !f.is_trashed)

/-- The refresh loop in the mkdir duplicate-name fallback (client.rs, lines
443-466): each fetched row is inserted with `ON CONFLICT(file_id) DO NOTHING`. -/
def insertListingIgnore (db : Db) (parent_id : Int) : List FileInfo → Except AppError Db
  | [] => .ok db
  | f :: rest =>
    match dbInsertIgnoreFileId db
        { file_id := f.file_id, parent_id := parent_id, name := f.filename
          is_dir := f.is_folder, size := f.size, etag := none } with
    | .error e => .error e
    | .ok db2 => insertListingIgnore db2 parent_id rest

/-- The body of the `response.code == 1` branch of `create_directory`
(client.rs, lines 399-479). Returns `some` when the branch resolves an id,
`none` when control falls through to the final error return. -/
def mkdirDuplicateReconcile (u : Upstream) (db : Db) (parent_id : Int) (name : String) :
    Except AppError (Option (Int × Db)) :=
  let fallback : Except AppError (Option (Int × Db)) :=
    match insertListingIgnore db parent_id (fetch_files_from_api u parent_id) with
    | .error e => .error e
    | .ok db2 =>
      match (fetch_files_from_api u parent_id).find?
          (fun f => f.filename == name && f.is_folder) with
      | some existing => .ok (some (existing.file_id, db2))
      | none => .ok none
  match find_file db parent_id name with
  | some existing =>
    if existing.is_folder then
      match dbFindDirChild db parent_id name with
      | some _ => .ok (some (existing.file_id, db))
      | none =>
        match dbInsert db
            { file_id := existing.file_id, parent_id := parent_id, name := name
              is_dir := true, size := existing.size, etag := none } with
        | .error e => .error e
        | .ok db2 => .ok (some (existing.file_id, db2))
    else fallback
  | none => fallback

/-- Rust `Pan123Client::create_directory(parent_id, name)` (client.rs, lines 379-506):
issue the upstream mkdir; on success insert the new row and return its id; on
the duplicate-name code 1 reconcile; otherwise surface the upstream error. -/
def create_directory (u : Upstream) (db : Db) (parent_id : Int) (name : String) :
    Except AppError (Int × Db) :=
  if (u.mkdir parent_id name).code == 0 then
    match (u.mkdir parent_id name).data with
    | some data =>
      match dbInsert db
          { file_id := data.dirID, parent_id := parent_id, name := name
            is_dir := true, size := 0, etag := none } with
      | .error e => .error e
      | .ok db2 => .ok (data.dirID, db2)
    | none => .error (.internal "No data in mkdir response")
  else
    match (if (u.mkdir parent_id name).code == 1 then
            mkdirDuplicateReconcile u db parent_id name
          else .ok none) with
    | .error e => .error e
    | .ok (some r) => .ok r
    | .ok none => .error (.pan123Api (u.mkdir parent_id name).code (u.mkdir parent_id name).message)

/-- The creating walk of `ensure_path` (client.rs, lines 556-573). The final
`Nat` counts the upstream mkdir requests issued (one per `create_directory`
invocation, which always posts before inspecting the response). -/
def ensurePathWalk (u : Upstream) : Int → Db → Nat → List String → Except AppError (Int × Db × Nat)
  | cur, db, k, [] => .ok (cur, db, k)
  | cur, db, k, part :: rest =>
    match dbFindDirChild db cur part with
    | some node => ensurePathWalk u node.file_id db k rest
    | none =>
      match create_directory u db cur part with
      | .error e => .error e
      | .ok (id, db2) => ensurePathWalk u id db2 (k + 1) rest

/-- Rust `Pan123Client::ensure_path(path)` (client.rs, lines 540-576): resolve from
the index when possible, otherwise walk and create missing segments. Returns
the resolved id, the new index state and the number of mkdir requests issued. -/
def ensure_path (u : Upstream) (db : Db) (path : String) : Except AppError (Int × Db × Nat) :=
  match find_path_id db path with
  | some id => .ok (id, db, 0)
  | none => ensurePathWalk u 0 db 0 (pathParts path)

/-- The six restic file types (src/pan123/types.rs, `ResticFileType`). -/
inductive ResticFileType where
  | config | data | keys | locks | snapshots | index
deriving DecidableEq

/-- Rust `ResticFileType::dirname`. -/
def ResticFileType.dirname : ResticFileType → String
  | .config => "config"
  | .data => "data"
  | .keys => "keys"
  | .locks => "locks"
  | .snapshots => "snapshots"
  | .index => "index"

/-- Rust `ResticFileType::is_config`. -/
def ResticFileType.is_config : ResticFileType → Bool
  | .config => true
  | _ => false

/-- Rust `Pan123Client::data_subdir_prefix(filename)`: the first two characters of
the filename (source name `data_subdir_prefix`; the names under restic's data
type are ASCII hex, so byte slicing and character taking agree). -/
def dataSubdirPfx (filename : String) : String :=
  strTake filename 2

/-- The path ensure-pathed by `Pan123Client::get_data_file_dir_id(filename)`
(client.rs, lines 588-592): repo_path/data/ followed by the 2-char shard. -/
def dataFileDirPath (repo_path filename : String) : String :=
  repo_path ++ "/data/" ++ dataSubdirPfx filename

/-- The path ensure-pathed by `Pan123Client::get_type_dir_id(file_type)`
(client.rs, lines 595-603): the repo root for config, repo_path/dirname else. -/
def typeDirPath (repo_path : String) (t : ResticFileType) : String :=
  if t.is_config then repo_path else repo_path ++ "/" ++ t.dirname

/-- Rust `Pan123Client::get_data_file_dir_id(filename)`: ensure-path the shard. -/
def get_data_file_dir_id (u : Upstream) (db : Db) (repo_path filename : String) :
    Except AppError (Int × Db × Nat) :=
  ensure_path u db (dataFileDirPath repo_path filename)

/-- Rust `Pan123Client::get_type_dir_id(file_type)`: ensure-path the type directory. -/
def get_type_dir_id (u : Upstream) (db : Db) (repo_path : String) (t : ResticFileType) :
    Except AppError (Int × Db × Nat) :=
  ensure_path u db (typeDirPath repo_path t)

/-- The directory resolution performed by the per-file handlers `post_file`,
`get_file`, `head_file` and `delete_file` (src/restic/handler.rs, lines 195-353):
each calls `get_type_dir_id(file_type)`, for every type and every file name. -/
def handlerFileDir (u : Upstream) (db : Db) (repo_path : String) (t : ResticFileType)
    (_name : String) : Except AppError (Int × Db × Nat) :=
  get_type_dir_id u db repo_path t

/-- One entry of the restic REST v2 listing (src/restic/types.rs, `FileEntryV2`). -/
structure FileEntryV2 where
  name : String
  size : Int
deriving DecidableEq

/-- The listing produced by the handler `list_files` (handler.rs, lines 156-188)
once the type directory id is resolved: the cached children of that directory,
each projected to (name, size). The handler uses this for every non-config
type, including data. -/
def handlerListEntries (db : Db) (dir_id : Int) : List FileEntryV2 :=
  (list_files db dir_id).map (fun f => { name := f.filename, size := f.size })

/-- Rust `Pan123Client::list_all_data_files()` (client.rs, lines 1010-1052): resolve
repo_path/data in the index, collect its directory children (the shards), and
return the non-directory children of those shards. -/
def list_all_data_files (db : Db) (repo_path : String) : List FileInfo :=
  match find_path_id db (repo_path ++ "/data") with
  | none => []
  | some data_dir_id =>
    let subdirs := db.filter (fun r => r.parent_id == data_dir_id && r.is_dir)
    let subdir_ids := subdirs.map (fun n => n.file_id)
    let files := db.filter (fun r => subdir_ids.contains r.parent_id && !r.is_dir)
    files.map modelToInfo

/-- The lowercase hex digit characters used by Rust's LowerHex formatting. -/
def hexDigitChar (n : Nat) : Char :=
  if n < 10 then Char.ofNat (48 + n) else Char.ofNat (87 + n)

/-- One byte printed as two lowercase hex digits (Rust formats an md5 digest
with a 02x field per byte). -/
def byteToHex (b : Nat) : String :=
  String.mk [hexDigitChar (b / 16 % 16), hexDigitChar (b % 16)]

/-- A 16-byte digest printed by Rust's LowerHex: two lowercase hex digits per
byte, in order — the value of `format` with the x specifier on `md5::compute`. -/
def hexOfDigest (digest : List Nat) : String :=
  String.join (digest.map byteToHex)

/-- The payload of a successful single-upload envelope (`SingleUploadData`). -/
structure SingleUploadData where
  fileID : Int
  completed : Bool
deriving DecidableEq

/-- A decoded single-upload response: envelope plus optional payload. -/
structure UploadResp where
  code : Int
  message : String
  data : Option SingleUploadData
deriving DecidableEq

/-- Rust `Pan123Client::upload_file(parent_id, filename, data)` (client.rs, lines
613-701). `md5` is the digest function of the external md5 crate, passed as a
parameter; `resp` is the decoded response of the multipart upload POST (which
carries fields parentFileID, filename, etag, size and duplicate set to 2). On
success the index is upserted by (parent_id, name) with the new file_id, the
byte length and the lowercase hex digest. -/
def upload_file (md5 : List Nat → List Nat) (resp : UploadResp) (db : Db)
    (parent_id : Int) (filename : String) (data : List Nat) :
    Except AppError (Int × Db) :=
  let file_size : Int := data.length
  let md5_hash := hexOfDigest (md5 data)
  if resp.code == 0 then
    match resp.data with
    | some upload_data =>
      if upload_data.completed then do
        let db2 ← dbUpsertByParentName db
          { file_id := upload_data.fileID, parent_id := parent_id, name := filename
            is_dir := false, size := file_size, etag := some md5_hash }
        .ok (upload_data.fileID, db2)
      else .error (.internal "Upload not completed")
    | none => .error (.internal "No data in upload response")
  else .error (.pan123Api resp.code resp.message)

/-- Rust `Pan123Client::trash_file(file_id)` (client.rs, lines 749-776): POST the
upstream trash request; on a non-zero envelope surface it with the index
unchanged; on success remove the row by id. The state component is returned
in both outcomes because the SQLite file persists across errors. -/
def trash_file (trashResp : Envelope) (db : Db) (file_id : Int) :
    Db × Except AppError Unit :=
  if trashResp.code == 0 then
    (dbDeleteById db file_id, .ok ())
  else
    (db, .error (.pan123Api trashResp.code trashResp.message))

/-- Rust `Pan123Client::delete_file(parent_id, file_id)` (client.rs, lines 779-805):
trash first, then POST the permanent delete, then remove the row by id again
(a repeat of the removal already performed by `trash_file`). -/
def delete_file (trashResp deleteResp : Envelope) (db : Db)
    (_parent_id file_id : Int) : Db × Except AppError Unit :=
  match trash_file trashResp db file_id with
  | (db1, .error e) => (db1, .error e)
  | (db1, .ok ()) =>
    if deleteResp.code == 0 then
      (dbDeleteById db1 file_id, .ok ())
    else
      (db1, .error (.pan123Api deleteResp.code deleteResp.message))

/-- Rust `Pan123Client::move_files(file_ids, to_parent_id)` (client.rs, lines
809-844): an empty id list returns at once; otherwise POST the upstream move
and bulk-update `parent_id` for the given ids. The `Nat` counts upstream HTTP
requests issued. -/
def move_files (moveResp : Envelope) (db : Db) (file_ids : List Int)
    (to_parent_id : Int) : Except AppError (Db × Nat) :=
  if file_ids.isEmpty then
    .ok (db, 0)
  else if moveResp.code == 0 then
    .ok (db.map (fun r =>
      if file_ids.contains r.file_id then { r with parent_id := to_parent_id } else r), 1)
  else
    .error (.pan123Api moveResp.code moveResp.message)

/-- Constant `MAX_RETRIES` (src/pan123/client.rs macro body; also src/pan123/mod.rs). -/
def MAX_RETRIES : Nat := 3

/-- Constant `RETRY_DELAY` in seconds (client.rs macro body; also src/pan123/mod.rs). -/
def RETRY_DELAY_SECS : Nat := 1

/-- The observable trace of one `retry_api` run: upstream requests issued,
1-second sleeps performed, token refreshes forced, and the final outcome (the
macro either returns the decoded envelope or fails with a typed error). -/
structure RetryTrace where
  requests : Nat
  sleeps : Nat
  refreshes : Nat
  result : Except AppError Envelope

/-- The `retry_api` loop (client.rs, lines 20-88) from a given attempt number:
on code 429 sleep `RETRY_DELAY` and retry while attempts remain, else fail with
the envelope; on code 401 force a token refresh and retry while attempts
remain, else fall through and return the envelope; any other code returns the
envelope at once. `resp` gives the decoded envelope of the request issued at
each attempt. -/
def retryFrom (resp : Nat → Envelope) (attempt : Nat) : RetryTrace :=
  let e := resp attempt
  if e.code == 429 then
    if h : attempt < MAX_RETRIES then
      let t := retryFrom resp (attempt + 1)
      { t with requests := t.requests + 1, sleeps := t.sleeps + 1 }
    else
      { requests := 1, sleeps := 0, refreshes := 0
        result := .error (.pan123Api e.code e.message) }
  else if e.code == 401 then
    if h : attempt < MAX_RETRIES then
      let t := retryFrom resp (attempt + 1)
      { t with requests := t.requests + 1, refreshes := t.refreshes + 1 }
    else
      { requests := 1, sleeps := 0, refreshes := 0, result := .ok e }
  else
    { requests := 1, sleeps := 0, refreshes := 0, result := .ok e }
termination_by MAX_RETRIES - attempt
decreasing_by all_goals simp only [MAX_RETRIES] at *; omega

/-- One full `retry_api` run, as wrapped around every GET, POST and multipart
request primitive (client.rs `get`, `get_no_timeout`, `post`, the upload-domain
fetch and the multipart upload all expand the same macro). -/
def retry_api (resp : Nat → Envelope) : RetryTrace :=
  retryFrom resp 0

/-- A core request primitive followed by the envelope check performed at every
call site: a non-zero code in the returned envelope is surfaced as the typed
upstream error carrying that code and message. -/
def apiCall (resp : Nat → Envelope) : RetryTrace × Except AppError Envelope :=
  let t := retry_api resp
  (t, match t.result with
      | .error e => .error e
      | .ok env => if env.code == 0 then .ok env else .error (.pan123Api env.code env.message))

/-- The per-directory body of the warm-up crawl (client.rs, lines 963-1002):
fetch the listing (one list call), bulk-insert all rows (the source chunks the
insert statements by 50 rows; a chunk is modelled row by row) and push the
directory children onto the work stack (`Vec::push` then `Vec::pop` takes the
most recently pushed first, so children are prepended in reverse order). -/
def warmCrawlStep (u : Upstream) (db : Db) (parent_id : Int) :
    Except AppError (Db × List Int) := do
  let files := fetch_files_from_api u parent_id
  let rows := files.map (fun f =>
    { file_id := f.file_id, parent_id := parent_id, name := f.filename
      is_dir := f.is_folder, size := f.size, etag := none : Model })
  let db2 ← rows.foldlM dbInsert db
  .ok (db2, ((files.filter (fun f => f.is_folder)).map (fun f => f.file_id)).reverse)

/-- The warm-up crawl loop over the explicit work stack. The Rust loop
terminates because the upstream tree is finite and acyclic; `fuel` bounds the
modelled loop and exceeds any finite crawl when chosen large enough. The
second component accumulates the number of upstream list calls issued. -/
def warmCrawl (u : Upstream) : Nat → Db → List Int → Nat → Except AppError (Db × Nat)
  | _, db, [], calls => .ok (db, calls)
  | 0, _, _ :: _, _ => .error (.internal "crawl fuel exhausted")
  | fuel + 1, db, parent_id :: queue, calls => do
    let (db2, children) ← warmCrawlStep u db parent_id
    warmCrawl u fuel db2 (children ++ queue) (calls + 1)

/-- The repo-path resolution phase of `warm_cache` (client.rs, lines 911-958):
walk the configured path segment by segment, fetching each parent's listing
and inserting only the matching directory row; a missing segment logs and
returns success. Returns the resolved root (when found), the index state and
the number of list calls issued. -/
def warmResolveRepo (u : Upstream) : Int → Db → Nat → List String →
    Except AppError (Option Int × Db × Nat)
  | cur, db, calls, [] => .ok (some cur, db, calls)
  | cur, db, calls, part :: rest =>
    let files := fetch_files_from_api u cur
    match files.find? (fun f => f.filename == part && f.is_folder) with
    | some found =>
      match dbInsert db { file_id := found.file_id, parent_id := cur, name := found.filename
                          is_dir := true, size := 0, etag := none } with
      | .error e => .error e
      | .ok db2 => warmResolveRepo u found.file_id db2 (calls + 1) rest
    | none => .ok (none, db, calls + 1)

/-- Rust `Pan123Client::warm_cache(force_rebuild)` (client.rs, lines 877-1007):
if the index is nonempty and no rebuild is forced, reuse it and return at
once; otherwise truncate, resolve the repo path and crawl. Returns the final
index state and the number of upstream list calls issued. -/
def warm_cache (u : Upstream) (fuel : Nat) (db : Db) (repo_path : String)
    (force_rebuild : Bool) : Except AppError (Db × Nat) :=
  let count := db.length
  if !force_rebuild && count > 0 then
    .ok (db, 0)
  else
    let db1 : Db := []
    match warmResolveRepo u 0 db1 0 (pathParts repo_path) with
    | .error e => .error e
    | .ok (none, db2, calls) => .ok (db2, calls)
    | .ok (some root, db2, calls) =>
      match warmCrawl u fuel db2 [root] 0 with
      | .error e => .error e
      | .ok (db3, crawlCalls) => .ok (db3, calls + crawlCalls)

/-- The constant `2 ^ 64`, the modulus of Rust's u64 arithmetic. -/
def U64_MOD : Nat := 2 ^ 64

/-- Whether a character is a decimal digit, over its code point. -/
def isDigitChar (c : Char) : Bool :=
  48 ≤ c.toNat && c.toNat ≤ 57

/-- The numeric value of a decimal digit list, most significant first. -/
def charsToNat (cs : List Char) : Nat :=
  cs.foldl (fun acc c => acc * 10 + (c.toNat - 48)) 0

/-- Decimal parsing of a nonempty all-digit string, over the character list. -/
def strParseNat (s : String) : Option Nat :=
  if !s.data.isEmpty && s.data.all isDigitChar then some (charsToNat s.data)
  else none

/-- Rust's u64 string parsing as used by `parse_range`: an optional leading
plus sign, then decimal digits, rejecting values above the u64 maximum. -/
def parseU64 (s : String) : Option Nat :=
  let digits := if strHasPfx s "+" then strDrop s 1 else s
  match strParseNat digits with
  | some n => if n < U64_MOD then some n else none
  | none => none

/-- Rust `parse_range(header, file_size)` (src/restic/handler.rs, lines 218-245).
An empty start means a suffix range whose start is the saturating difference
of size and the parsed suffix length; an empty end means size minus one in
wrapping u64 arithmetic (the release-profile behavior of the subtraction);
the range is accepted when start is at most end and below the size, with the
end clamped to size minus one. A `none` result makes `get_file` fall back to
a full download. -/
def parse_range (header : String) (file_size : Nat) : Option (Nat × Nat) :=
  if strHasPfx header "bytes=" then
    let range_spec := strDrop header 6
    let parts := strSplitOn range_spec '-'
    if parts.length == 2 then
      let p0 := parts.getD 0 ""
      let p1 := parts.getD 1 ""
      let startOpt : Option Nat :=
        if strIsEmpty p0 then
          (parseU64 p1).map (fun suffix_len => file_size - suffix_len)
        else parseU64 p0
      let endOpt : Option Nat :=
        if strIsEmpty p1 then some ((file_size + U64_MOD - 1) % U64_MOD)
        else parseU64 p1
      match startOpt, endOpt with
      | some s, some e =>
        if s ≤ e && s < file_size then some (s, min e (file_size - 1)) else none
      | _, _ => none
    else none
  else none

/-- Decidable equality for `Except`, used to evaluate closed statements. -/
instance {ε α : Type} [DecidableEq ε] [DecidableEq α] : DecidableEq (Except ε α) := fun x y =>
  match x, y with
  | .ok a, .ok b =>
    if h : a = b then .isTrue (by rw [h]) else .isFalse (by intro hc; cases hc; exact h rfl)
  | .error a, .error b =>
    if h : a = b then .isTrue (by rw [h]) else .isFalse (by intro hc; cases hc; exact h rfl)
  | .ok _, .error _ => .isFalse (by intro hc; cases hc)
  | .error _, .ok _ => .isFalse (by intro hc; cases hc)

/-- Example upstream whose mkdir always succeeds, allocating id parent + 1. -/
def exUpstreamOk : Upstream :=
  { mkdir := fun p _ => { code := 0, message := "", data := some { dirID := p + 1 } }
    listing := fun _ => [] }

/-- Example index: repo root r (id 1) holding data (id 2) holding shard aa (id 3). -/
def exDbSharded : Db :=
  [ { file_id := 1, parent_id := 0, name := "r", is_dir := true, size := 0, etag := none },
    { file_id := 2, parent_id := 1, name := "data", is_dir := true, size := 0, etag := none },
    { file_id := 3, parent_id := 2, name := "aa", is_dir := true, size := 0, etag := none } ]

/-- State `exDbSharded` plus a data file aa07 of size 7 inside the shard aa. -/
def exDbShardedFile : Db :=
  exDbSharded ++ [ { file_id := 4, parent_id := 3, name := "aa07", is_dir := false, size := 7, etag := none } ]

/-- A single cached file row with id 7. -/
def exDbOneFile : Db :=
  [ { file_id := 7, parent_id := 1, name := "x", is_dir := false, size := 3, etag := none } ]

/-- Upstream answering every mkdir with the duplicate-name code 1 and listing
a directory a with id 5 under the root. -/
def exUpstreamDup : Upstream :=
  { mkdir := fun _ _ => { code := 1, message := "dup", data := none }
    listing := fun p =>
      if p == 0 then
        [ { file_id := 5, filename := "a", file_type := 1, size := 0, parent_file_id := 0, trashed := 0 } ]
      else [] }

/-- A stale index: directory id 5 is recorded under parent 99 although the
upstream lists it under the root (the documented crash-between-write-and-update
coherence hazard after a move). -/
def exDbStale : Db :=
  [ { file_id := 5, parent_id := 99, name := "a", is_dir := true, size := 0, etag := none } ]

/-- Upstream answering every mkdir with the duplicate-name code 1 and empty listings. -/
def exUpstreamDupEmpty : Upstream :=
  { mkdir := fun _ _ => { code := 1, message := "dup", data := none }
    listing := fun _ => [] }

/-- An index holding directory a with id 5 under the root. -/
def exDbDirA : Db :=
  [ { file_id := 5, parent_id := 0, name := "a", is_dir := true, size := 0, etag := none } ]

/-- A constant digest function standing in for md5 in concrete instantiations. -/
def exMd5 : List Nat → List Nat := fun _ => List.replicate 16 0

/-- A successful single-upload response minting file id 42. -/
def exUploadResp : UploadResp := { code := 0, message := "", data := some { fileID := 42, completed := true } }

/-- The index produced by uploading three bytes as config into an empty index
with `exMd5` and `exUploadResp`. -/
def exDbAfterUpload : Db :=
  [ { file_id := 42, parent_id := 0, name := "config", is_dir := false, size := 3
      etag := some "00000000000000000000000000000000" } ]

/-- The index produced by ensure-pathing /a/b with `exUpstreamOk` from empty. -/
def exDbCreated : Db :=
  [ { file_id := 1, parent_id := 0, name := "a", is_dir := true, size := 0, etag := none },
    { file_id := 2, parent_id := 1, name := "b", is_dir := true, size := 0, etag := none } ]

/- ————————————————————————————————————————————————————————————————
   Helper lemmas
   ———————————————————————————————————————————————————————————————— -/

theorem find?_append_some {α} (p : α → Bool) {l₁ : List α} (l₂ : List α) {a : α}
    (h : l₁.find? p = some a) : (l₁ ++ l₂).find? p = some a := by
  rw [List.find?_append, h]; rfl

theorem find?_append_none {α} (p : α → Bool) {l₁ : List α} (l₂ : List α)
    (h : l₁.find? p = none) : (l₁ ++ l₂).find? p = l₂.find? p := by
  rw [List.find?_append, h]; rfl

theorem find?_some_pred {α} (p : α → Bool) (l : List α) (a : α) (h : l.find? p = some a) :
    p a = true :=
  List.find?_some h

theorem find?_filter_and {α} (p q : α → Bool) (l : List α) :
    (l.filter p).find? q = l.find? (fun a => p a && q a) := by
  induction l with
  | nil => rfl
  | cons a t ih =>
    by_cases hp : p a
    · by_cases hq : q a <;> simp [List.filter_cons, hp, hq, List.find?_cons, ih]
    · simp [List.filter_cons, hp, List.find?_cons, ih]

theorem filter_self_idem {α} (p : α → Bool) (l : List α) :
    (l.filter p).filter p = l.filter p := by
  induction l with
  | nil => rfl
  | cons a t ih => by_cases hp : p a <;> simp [List.filter_cons, hp, ih]

/-- Lemma: `find_file` is the projection of the first cached (parent, name) row. -/
theorem find_file_eq (db : Db) (p : Int) (n : String) :
    find_file db p n = (dbFindChild db p n).map modelToInfo := by
  unfold find_file list_files dbFindChild
  rw [List.find?_map, find?_filter_and]
  rfl

/-- If the first (parent, name) row is a directory, it is also the first
(parent, name, is_dir) row. -/
theorem dbFindDirChild_of_child {db : Db} {p : Int} {n : String} {r : Model}
    (h : dbFindChild db p n = some r) (hd : r.is_dir = true) :
    dbFindDirChild db p n = some r := by
  unfold dbFindChild at h
  unfold dbFindDirChild
  induction db with
  | nil => simp at h
  | cons a t ih =>
    by_cases hpa : (a.parent_id == p && a.name == n) = true
    · have hsome : List.find? (fun r => r.parent_id == p && r.name == n) (a :: t) = some a :=
        List.find?_cons_of_pos t hpa
      rw [hsome] at h
      injection h with h2
      subst h2
      exact List.find?_cons_of_pos t (by rw [hpa, hd]; rfl)
    · have hpaf : (a.parent_id == p && a.name == n) = false := by simpa using hpa
      have hnone : List.find? (fun r => r.parent_id == p && r.name == n) (a :: t)
          = List.find? (fun r => r.parent_id == p && r.name == n) t :=
        List.find?_cons_of_neg t (by simp [hpaf])
      rw [hnone] at h
      have hstep : List.find? (fun r => (r.parent_id == p && r.name == n) && r.is_dir) (a :: t)
          = List.find? (fun r => (r.parent_id == p && r.name == n) && r.is_dir) t :=
        List.find?_cons_of_neg t (by simp [hpaf])
      rw [hstep]
      exact ih h

/-- The unique (parent, name) index bounds matching rows by one. -/
theorem dbWF_filter_length_le_one {db : Db} (p : Int) (n : String) (hwf : dbWF db) :
    (db.filter (fun r => r.parent_id == p && r.name == n)).length ≤ 1 := by
  induction db with
  | nil => simp
  | cons a t ih =>
    rw [dbWF, List.pairwise_cons] at hwf
    obtain ⟨ha, ht⟩ := hwf
    by_cases hpa : (a.parent_id == p && a.name == n) = true
    · have hnil : t.filter (fun r => r.parent_id == p && r.name == n) = [] := by
        rw [List.filter_eq_nil_iff]
        intro b hb hq
        simp only [Bool.and_eq_true, beq_iff_eq] at hpa hq
        exact ha b hb ⟨hpa.1.trans hq.1.symm, hpa.2.trans hq.2.symm⟩
      simp [List.filter_cons, hpa, hnil]
    · simp only [List.filter_cons, hpa, if_false, ite_false, Bool.false_eq_true]
      exact ih ht

/- ————————————————————————————————————————————————————————————————
   C1: data-type per-file operations do not use the shard directory
   ———————————————————————————————————————————————————————————————— -/

/-- C1: the claim fails on the code. Every per-file handler (POST, HEAD, GET,
DELETE on a data file) resolves its directory with `get_type_dir_id`, which
for the data type is repo_path/data — not the shard repo_path/data/xx that
`get_data_file_dir_id` resolves. At the concrete state with root r (1),
data (2) and shard aa (3), a write or read of data file aa00ff is directed at
directory id 2, while the sharding helper (which no handler calls) resolves
id 3. This contradicts the sharded layout documented on
`get_data_file_dir_id` and implemented by the migration tool. -/
theorem c1_data_ops_not_sharded :
    handlerFileDir exUpstreamOk exDbSharded "/r" ResticFileType.data "aa00ff"
      = .ok (2, exDbSharded, 0) ∧
    get_data_file_dir_id exUpstreamOk exDbSharded "/r" "aa00ff"
      = .ok (3, exDbSharded, 0) ∧
    typeDirPath "/r" ResticFileType.data = "/r/data" ∧
    dataFileDirPath "/r" "aa00ff" = "/r/data/aa" ∧
    (2 : Int) ≠ 3 :=
  ⟨rfl, rfl, rfl, rfl, by decide⟩

/- ————————————————————————————————————————————————————————————————
   C2: the data-type listing does not aggregate across shards
   ———————————————————————————————————————————————————————————————— -/

/-- C2: the claim fails on the code. The handler `list_files` resolves
`get_type_dir_id(data)` (= repo_path/data, id 2 in the concrete state) and
returns that directory's direct cached children — here the shard directory
itself, as entry (aa, 0) — while `list_all_data_files`, which the handler
never calls, returns the union of the shard contents, entry (aa07, 7). -/
theorem c2_data_listing_not_aggregated :
    ensure_path exUpstreamOk exDbShardedFile "/r/data" = .ok (2, exDbShardedFile, 0) ∧
    handlerListEntries exDbShardedFile 2 = [{ name := "aa", size := 0 }] ∧
    (list_all_data_files exDbShardedFile "/r").map
      (fun f => ({ name := f.filename, size := f.size } : FileEntryV2))
      = [{ name := "aa07", size := 7 }] ∧
    ([{ name := "aa", size := 0 }] : List FileEntryV2) ≠ [{ name := "aa07", size := 7 }] :=
  ⟨rfl, rfl, rfl, by decide⟩

/- ————————————————————————————————————————————————————————————————
   C3: when is the index row destroyed during delete_file?
   ———————————————————————————————————————————————————————————————— -/

/-- C3 counterexample: with a successful trash envelope and a failing
permanent-delete envelope, `delete_file` surfaces the error but the row for
file id 7 has already been destroyed (the final state is empty), contradicting
the claim that the row is not destroyed when the permanent delete fails. -/
theorem c3_counterexample :
    delete_file { code := 0, message := "ok" } { code := 1, message := "boom" }
        exDbOneFile 1 7
      = ([], .error (.pan123Api 1 "boom")) ∧
    exDbOneFile ≠ [] :=
  ⟨rfl, by decide⟩

/-- C3 amended: the row is destroyed by the successful upstream trash step
(`trash_file` removes it immediately), regardless of the permanent-delete
outcome; if the trash step itself fails, the state is unchanged and the trash
envelope's code and message are surfaced. -/
theorem c3_row_destroyed_by_trash (tr de : Envelope) (db : Db) (p fid : Int) :
    (tr.code = 0 →
      (delete_file tr de db p fid).1 = dbDeleteById db fid ∧
      ∀ r ∈ (delete_file tr de db p fid).1, r.file_id ≠ fid) ∧
    (tr.code ≠ 0 →
      delete_file tr de db p fid = (db, .error (.pan123Api tr.code tr.message))) := by
  constructor
  · intro h0
    have hfst : (delete_file tr de db p fid).1 = dbDeleteById db fid := by
      unfold delete_file trash_file
      rw [h0]
      by_cases hde : de.code = 0
      · simp [hde, dbDeleteById, filter_self_idem]
      · simp [hde]
    refine ⟨hfst, ?_⟩
    intro r hr
    rw [hfst] at hr
    unfold dbDeleteById at hr
    have := (List.mem_filter.mp hr).2
    simpa using this
  · intro hne
    unfold delete_file trash_file
    have : (tr.code == 0) = false := by simpa using hne
    simp [this]

/-- C3 witness: the amended theorem applied at concrete inputs, once with a
successful trash (row destroyed) and once with a failing trash (state kept). -/
theorem c3_witness :
    ((delete_file { code := 0, message := "ok" } { code := 0, message := "" } exDbOneFile 1 7).1
      = dbDeleteById exDbOneFile 7) ∧
    (delete_file { code := 3, message := "e" } { code := 0, message := "" } exDbOneFile 1 7
      = (exDbOneFile, .error (.pan123Api 3 "e"))) :=
  ⟨((c3_row_destroyed_by_trash { code := 0, message := "ok" } { code := 0, message := "" }
      exDbOneFile 1 7).1 rfl).1,
   (c3_row_destroyed_by_trash { code := 3, message := "e" } { code := 0, message := "" }
      exDbOneFile 1 7).2 (by decide)⟩

/- ————————————————————————————————————————————————————————————————
   C7 counterexample: ensure_path is not always mkdir-free on repetition
   ———————————————————————————————————————————————————————————————— -/

/-- C7 counterexample: with a stale index row (id 5 cached under parent 99)
and an upstream that reports the duplicate-name code and lists the directory
a with id 5 under the root, `ensure_path` of /a succeeds with id 5 and leaves
the index unchanged — the conflict-ignoring insert skips the row because file
id 5 already exists — so the immediately repeated call (same state, same
upstream) again issues one mkdir request rather than zero. -/
theorem c7_counterexample :
    ensure_path exUpstreamDup exDbStale "/a" = .ok (5, exDbStale, 1) ∧
    ensure_path exUpstreamDup exDbStale "/a" ≠ .ok (5, exDbStale, 0) := by
  refine ⟨rfl, ?_⟩
  intro h
  have h1 : ensure_path exUpstreamDup exDbStale "/a" = .ok (5, exDbStale, 1) := rfl
  have h2 : ((5 : Int), exDbStale, (1 : Nat)) = ((5 : Int), exDbStale, (0 : Nat)) :=
    Except.ok.inj (h1.symm.trans h)
  simp at h2

/- ————————————————————————————————————————————————————————————————
   C8: warm_cache reuses a nonempty index
   ———————————————————————————————————————————————————————————————— -/

/-- C8: with a nonzero row count and `force_rebuild = false`, `warm_cache`
returns success at once, issues zero upstream list calls, and leaves the
index exactly as it was. -/
theorem c8_warm_cache_reuse (u : Upstream) (fuel : Nat) (db : Db) (repo_path : String)
    (h : db.length ≠ 0) :
    warm_cache u fuel db repo_path false = .ok (db, 0) := by
  unfold warm_cache
  simp [Nat.pos_of_ne_zero h]

/-- C8 witness: the theorem applied at a concrete nonempty index. -/
theorem c8_witness : warm_cache exUpstreamOk 5 exDbStale "/r" false = .ok (exDbStale, 0) :=
  c8_warm_cache_reuse exUpstreamOk 5 exDbStale "/r" (by decide)

/- ————————————————————————————————————————————————————————————————
   C9: the suffix form of parse_range
   ———————————————————————————————————————————————————————————————— -/

/-- C9: the claim fails on the code. For a file of size 10 the header with
suffix form bytes=-6 (last 6 bytes, i.e. 4 through 9) is parsed as the range
(4, 6): the code reuses the suffix number as the end bound instead of
size - 1, contradicting its own comment. For bytes=-2 (last 2 bytes, 8
through 9) the computed start 8 exceeds the end bound 2, so the range is
dropped and the request falls back to a full download. Ordinary ranges are
clamped correctly, as the last conjunct shows. -/
theorem c9_suffix_range_divergence :
    parse_range "bytes=-6" 10 = some (4, 6) ∧
    (some ((4 : Nat), (6 : Nat)) ≠ some ((4 : Nat), (9 : Nat))) ∧
    parse_range "bytes=-2" 10 = none ∧
    parse_range "bytes=0-1023" 4096 = some (0, 1023) ∧
    parse_range "bytes=5-99999" 10 = some (5, 9) ∧
    parse_range "bytes=0-" 0 = none :=
  ⟨rfl, by decide, rfl, rfl, rfl, rfl⟩

/- ————————————————————————————————————————————————————————————————
   C4: the retry policy of the request primitives
   ———————————————————————————————————————————————————————————————— -/

theorem retryFrom_requests_le (resp : Nat → Envelope) :
    ∀ (k attempt : Nat), MAX_RETRIES - attempt ≤ k →
      (retryFrom resp attempt).requests ≤ k + 1 := by
  intro k
  induction k with
  | zero =>
    intro attempt h
    have hlt : ¬ attempt < MAX_RETRIES := by omega
    rw [retryFrom]
    split_ifs <;> simp_all
  | succ k ih =>
    intro attempt h
    rw [retryFrom]
    split_ifs with h1 h2 h3 h4
    · have := ih (attempt + 1) (by omega)
      simp only [RetryTrace.mk.injEq]
      omega
    · simp
    · have := ih (attempt + 1) (by omega)
      simp only [RetryTrace.mk.injEq]
      omega
    · simp
    · simp

theorem retry_all_429 (resp : Nat → Envelope) (h : ∀ i, (resp i).code = 429) :
    retry_api resp
      = (⟨4, 3, 0, .error (.pan123Api 429 (resp MAX_RETRIES).message)⟩ : RetryTrace) := by
  have e3 : retryFrom resp 3
      = (⟨1, 0, 0, .error (.pan123Api 429 (resp 3).message)⟩ : RetryTrace) := by
    rw [retryFrom]; simp [h 3, MAX_RETRIES]
  have e2 : retryFrom resp 2
      = (⟨2, 1, 0, .error (.pan123Api 429 (resp 3).message)⟩ : RetryTrace) := by
    rw [retryFrom]; simp [h 2, MAX_RETRIES, e3]
  have e1 : retryFrom resp 1
      = (⟨3, 2, 0, .error (.pan123Api 429 (resp 3).message)⟩ : RetryTrace) := by
    rw [retryFrom]; simp [h 1, MAX_RETRIES, e2]
  show retryFrom resp 0 = _
  rw [retryFrom]; simp [h 0, MAX_RETRIES, e1]

theorem retry_all_401 (resp : Nat → Envelope) (h : ∀ i, (resp i).code = 401) :
    retry_api resp
      = (⟨4, 0, 3, .ok (resp MAX_RETRIES)⟩ : RetryTrace) := by
  have e3 : retryFrom resp 3 = (⟨1, 0, 0, .ok (resp 3)⟩ : RetryTrace) := by
    rw [retryFrom]; simp [h 3, MAX_RETRIES]
  have e2 : retryFrom resp 2 = (⟨2, 0, 1, .ok (resp 3)⟩ : RetryTrace) := by
    rw [retryFrom]; simp [h 2, MAX_RETRIES, e3]
  have e1 : retryFrom resp 1 = (⟨3, 0, 2, .ok (resp 3)⟩ : RetryTrace) := by
    rw [retryFrom]; simp [h 1, MAX_RETRIES, e2]
  show retryFrom resp 0 = _
  rw [retryFrom]; simp [h 0, MAX_RETRIES, e1]

theorem retry_first_not_retryable (resp : Nat → Envelope)
    (h429 : (resp 0).code ≠ 429) (h401 : (resp 0).code ≠ 401) :
    retry_api resp = (⟨1, 0, 0, .ok (resp 0)⟩ : RetryTrace) := by
  show retryFrom resp 0 = _
  rw [retryFrom]
  simp [h429, h401]

/-- C4 counterexample: a run in which every envelope carries code 401 performs
three additional attempts (four requests) but zero 1-second sleeps — the
retry loop only sleeps before 429-triggered retries, so the claimed 1-second
delay between attempts does not hold for the 401-triggered ones. -/
theorem c4_counterexample :
    (retry_api (fun _ => { code := 401, message := "t" })).requests = 4 ∧
    (retry_api (fun _ => { code := 401, message := "t" })).sleeps = 0 ∧
    (0 : Nat) ≠ 4 - 1 := by
  have h := retry_all_401 (fun _ => { code := 401, message := "t" }) (fun _ => rfl)
  exact ⟨by rw [h], by rw [h], by decide⟩

/-- C4 amended: every request primitive is wrapped in the one `retry_api`
loop with at most three additional attempts; a 429 envelope sleeps one
`RETRY_DELAY` second and retries; a 401 envelope forces a token refresh and
retries immediately (consuming a retry budget slot, with no sleep); any other
non-zero envelope is returned at once, surfaced by the uniform call-site
check as the typed upstream error carrying its code and message; when the
budget is exhausted, the last envelope's code and message are surfaced. -/
theorem c4_retry_policy (resp : Nat → Envelope) :
    ((retry_api resp).requests ≤ MAX_RETRIES + 1) ∧
    ((∀ i, (resp i).code = 429) →
      retry_api resp = (⟨4, 3, 0, .error (.pan123Api 429 (resp MAX_RETRIES).message)⟩ : RetryTrace)) ∧
    ((∀ i, (resp i).code = 401) →
      retry_api resp = (⟨4, 0, 3, .ok (resp MAX_RETRIES)⟩ : RetryTrace) ∧
      (apiCall resp).2 = .error (.pan123Api 401 (resp MAX_RETRIES).message)) ∧
    ((resp 0).code ≠ 0 → (resp 0).code ≠ 429 → (resp 0).code ≠ 401 →
      retry_api resp = (⟨1, 0, 0, .ok (resp 0)⟩ : RetryTrace) ∧
      (apiCall resp).2 = .error (.pan123Api (resp 0).code (resp 0).message)) ∧
    ((resp 0).code = 0 →
      retry_api resp = (⟨1, 0, 0, .ok (resp 0)⟩ : RetryTrace) ∧
      (apiCall resp).2 = .ok (resp 0)) := by
  refine ⟨retryFrom_requests_le resp MAX_RETRIES 0 (by omega), retry_all_429 resp, ?_, ?_, ?_⟩
  · intro h
    have ht := retry_all_401 resp h
    refine ⟨ht, ?_⟩
    unfold apiCall
    rw [ht]
    simp [h MAX_RETRIES]
  · intro h0 h429 h401
    have ht := retry_first_not_retryable resp h429 h401
    refine ⟨ht, ?_⟩
    unfold apiCall
    rw [ht]
    simp [h0]
  · intro h0
    have ht := retry_first_not_retryable resp (by rw [h0]; decide) (by rw [h0]; decide)
    refine ⟨ht, ?_⟩
    unfold apiCall
    rw [ht]
    simp [h0]

/-- C4 witness: the amended theorem applied at the four concrete envelope
streams (all-429, all-401, one other non-zero code, success). -/
theorem c4_witness :
    (retry_api (fun _ => { code := 429, message := "r" })
      = (⟨4, 3, 0, .error (.pan123Api 429 "r")⟩ : RetryTrace)) ∧
    (retry_api (fun _ => { code := 401, message := "t" })
      = (⟨4, 0, 3, .ok { code := 401, message := "t" }⟩ : RetryTrace) ∧
      (apiCall (fun _ => { code := 401, message := "t" })).2 = .error (.pan123Api 401 "t")) ∧
    (retry_api (fun _ => { code := 7, message := "e" })
      = (⟨1, 0, 0, .ok { code := 7, message := "e" }⟩ : RetryTrace) ∧
      (apiCall (fun _ => { code := 7, message := "e" })).2 = .error (.pan123Api 7 "e")) ∧
    (retry_api (fun _ => { code := 0, message := "ok" })
      = (⟨1, 0, 0, .ok { code := 0, message := "ok" }⟩ : RetryTrace) ∧
      (apiCall (fun _ => { code := 0, message := "ok" })).2 = .ok { code := 0, message := "ok" }) :=
  ⟨(c4_retry_policy _).2.1 (fun _ => rfl),
   (c4_retry_policy _).2.2.1 (fun _ => rfl),
   (c4_retry_policy _).2.2.2.1 (by decide) (by decide) (by decide),
   (c4_retry_policy _).2.2.2.2 rfl⟩

/- ————————————————————————————————————————————————————————————————
   C5: upload_file then find_file
   ———————————————————————————————————————————————————————————————— -/

theorem upsert_ok_cases (db : Db) (r : Model) (db2 : Db)
    (h : dbUpsertByParentName db r = .ok db2) :
    (db.any (fun x => x.parent_id == r.parent_id && x.name == r.name) = true ∧
     db2 = db.map (fun x =>
       if x.parent_id == r.parent_id && x.name == r.name then
         { x with file_id := r.file_id, size := r.size, etag := r.etag }
       else x)) ∨
    (db.any (fun x => x.parent_id == r.parent_id && x.name == r.name) = false ∧
     db2 = db ++ [r]) := by
  unfold dbUpsertByParentName at h
  split at h
  case isTrue hex =>
    split at h
    case isTrue hconf => exact Except.noConfusion h
    case isFalse hconf => exact Or.inl ⟨hex, (Except.ok.inj h).symm⟩
  case isFalse hex =>
    split at h
    case isTrue hid => exact Except.noConfusion h
    case isFalse hid => exact Or.inr ⟨by simpa using hex, (Except.ok.inj h).symm⟩

theorem upload_ok_shape (md5 : List Nat → List Nat) (resp : UploadResp) (db : Db)
    (parent_id : Int) (filename : String) (data : List Nat) (fid : Int) (db' : Db)
    (h : upload_file md5 resp db parent_id filename data = .ok (fid, db')) :
    dbUpsertByParentName db
      { file_id := fid, parent_id := parent_id, name := filename, is_dir := false
        size := (data.length : Int), etag := some (hexOfDigest (md5 data)) } = .ok db' := by
  simp only [upload_file] at h
  split at h
  case isFalse => exact Except.noConfusion h
  case isTrue hc =>
    split at h
    case h_2 => exact Except.noConfusion h
    case h_1 up hdata =>
      split at h
      case isFalse => exact Except.noConfusion h
      case isTrue hcomp =>
        cases hupsert : dbUpsertByParentName db
            { file_id := up.fileID, parent_id := parent_id, name := filename, is_dir := false
              size := (data.length : Int), etag := some (hexOfDigest (md5 data)) } with
        | error e =>
          rw [hupsert] at h
          exact Except.noConfusion h
        | ok db2 =>
          rw [hupsert] at h
          have h2 : (Except.ok (up.fileID, db2) : Except AppError (Int × Db)) = .ok (fid, db') := h
          injection h2 with h3
          injection h3 with hfid hdb
          rw [hfid, hdb] at hupsert
          exact hupsert

/-- C5: if `upload_file(p, n, bytes)` succeeds, the index holds a (p, n) row
with the minted file id, size equal to the byte length, and etag equal to the
lowercase hex md5 digest; `find_file(p, n)` returns its projection; and
exactly one (p, n) row exists, so an overwrite does not duplicate the
logical row. -/
theorem c5_upload_then_find (md5 : List Nat → List Nat) (resp : UploadResp) (db : Db)
    (parent_id : Int) (filename : String) (data : List Nat) (fid : Int) (db' : Db)
    (h : upload_file md5 resp db parent_id filename data = .ok (fid, db'))
    (hwf : dbWF db) :
    (∃ r, dbFindChild db' parent_id filename = some r ∧
       find_file db' parent_id filename = some (modelToInfo r) ∧
       r.file_id = fid ∧ r.size = (data.length : Int) ∧
       r.etag = some (hexOfDigest (md5 data))) ∧
    (db'.filter (fun x => x.parent_id == parent_id && x.name == filename)).length = 1 := by
  have hupsert := upload_ok_shape md5 resp db parent_id filename data fid db' h
  rcases upsert_ok_cases db _ db' hupsert with ⟨hex, hmap⟩ | ⟨hexf, happ⟩
  · -- overwrite branch: db' is db with the (p, n) row updated in place
    dsimp only at hex hmap
    obtain ⟨x0, hx0mem, hx0q⟩ := List.any_eq_true.mp hex
    have hqg : (fun a : Model => ((fun x : Model =>
          if x.parent_id == parent_id && x.name == filename then
            { x with file_id := fid, size := (data.length : Int)
                     etag := some (hexOfDigest (md5 data)) }
          else x) a).parent_id == parent_id
            && ((fun x : Model =>
          if x.parent_id == parent_id && x.name == filename then
            { x with file_id := fid, size := (data.length : Int)
                     etag := some (hexOfDigest (md5 data)) }
          else x) a).name == filename)
        = (fun x : Model => x.parent_id == parent_id && x.name == filename) := by
      funext a
      by_cases hqa : (a.parent_id == parent_id && a.name == filename) = true <;> simp [hqa]
    have hsome : (db.find? (fun x => x.parent_id == parent_id && x.name == filename)).isSome := by
      rw [List.find?_isSome]
      exact ⟨x0, hx0mem, hx0q⟩
    obtain ⟨x1, hx1⟩ := Option.isSome_iff_exists.mp hsome
    have hqx1 : (x1.parent_id == parent_id && x1.name == filename) = true :=
      find?_some_pred (fun x : Model => x.parent_id == parent_id && x.name == filename) db x1 hx1
    have hchild : dbFindChild db' parent_id filename
        = some { x1 with file_id := fid, size := (data.length : Int)
                         etag := some (hexOfDigest (md5 data)) } := by
      rw [hmap]
      unfold dbFindChild
      rw [List.find?_map]
      show Option.map _ (db.find? (fun a : Model => ((fun x : Model =>
          if x.parent_id == parent_id && x.name == filename then
            { x with file_id := fid, size := (data.length : Int)
                     etag := some (hexOfDigest (md5 data)) }
          else x) a).parent_id == parent_id
            && ((fun x : Model =>
          if x.parent_id == parent_id && x.name == filename then
            { x with file_id := fid, size := (data.length : Int)
                     etag := some (hexOfDigest (md5 data)) }
          else x) a).name == filename)) = _
      rw [hqg, hx1]
      obtain ⟨hA, hB⟩ : x1.parent_id = parent_id ∧ x1.name = filename := by
        simpa using hqx1
      simp [hqx1, hA, hB]
    constructor
    · exact ⟨_, hchild, by rw [find_file_eq, hchild]; rfl, rfl, rfl, rfl⟩
    · rw [hmap, List.filter_map]
      show (List.map _ (db.filter (fun a : Model => ((fun x : Model =>
          if x.parent_id == parent_id && x.name == filename then
            { x with file_id := fid, size := (data.length : Int)
                     etag := some (hexOfDigest (md5 data)) }
          else x) a).parent_id == parent_id
            && ((fun x : Model =>
          if x.parent_id == parent_id && x.name == filename then
            { x with file_id := fid, size := (data.length : Int)
                     etag := some (hexOfDigest (md5 data)) }
          else x) a).name == filename))).length = 1
      rw [hqg, List.length_map]
      have hle : (db.filter (fun x => x.parent_id == parent_id && x.name == filename)).length ≤ 1 :=
        dbWF_filter_length_le_one parent_id filename hwf
      have hpos : 0 < (db.filter (fun x => x.parent_id == parent_id && x.name == filename)).length :=
        List.length_pos.mpr (List.ne_nil_of_mem (List.mem_filter.mpr ⟨hx0mem, hx0q⟩))
      omega
  · -- fresh branch: db' is db with the new row appended
    dsimp only at hexf happ
    have hnone : db.find? (fun x => x.parent_id == parent_id && x.name == filename) = none := by
      rw [List.find?_eq_none]
      intro x hx
      have := List.any_eq_false.mp hexf x hx
      simpa using this
    have hq : ((fun x : Model => x.parent_id == parent_id && x.name == filename)
        { file_id := fid, parent_id := parent_id, name := filename, is_dir := false
          size := (data.length : Int), etag := some (hexOfDigest (md5 data)) }) = true := by
      simp
    have hchild : dbFindChild db' parent_id filename
        = some { file_id := fid, parent_id := parent_id, name := filename, is_dir := false
                 size := (data.length : Int), etag := some (hexOfDigest (md5 data)) } := by
      rw [happ]
      unfold dbFindChild
      rw [find?_append_none _ _ hnone]
      exact List.find?_cons_of_pos _ hq
    constructor
    · exact ⟨_, hchild, by rw [find_file_eq, hchild]; rfl, rfl, rfl, rfl⟩
    · rw [happ, List.filter_append]
      have hnil : db.filter (fun x => x.parent_id == parent_id && x.name == filename) = [] := by
        rw [List.filter_eq_nil_iff]
        intro x hx
        have := List.any_eq_false.mp hexf x hx
        simpa using this
      rw [hnil]
      simp [hq]

/-- C5 witness: the theorem applied at a concrete successful upload of three
bytes into an empty index. -/
theorem c5_witness :
    (∃ r, dbFindChild exDbAfterUpload 0 "config" = some r ∧
       find_file exDbAfterUpload 0 "config" = some (modelToInfo r) ∧
       r.file_id = 42 ∧ r.size = (([1, 2, 3] : List Nat).length : Int) ∧
       r.etag = some (hexOfDigest (exMd5 [1, 2, 3]))) ∧
    (exDbAfterUpload.filter (fun x => x.parent_id == 0 && x.name == "config")).length = 1 :=
  c5_upload_then_find exMd5 exUploadResp [] 0 "config" [1, 2, 3] 42 exDbAfterUpload rfl
    List.Pairwise.nil

/- ————————————————————————————————————————————————————————————————
   C6: duplicate-name reconciliation in create_directory
   ———————————————————————————————————————————————————————————————— -/

/-- C6: when the upstream mkdir answers with the duplicate-name code 1,
`create_directory` first consults `find_file`; if the found node is a
directory it returns that node's id with the node present in the index (the
state is unchanged, the row being already cached); otherwise it re-fetches
the parent's full upstream listing, inserts every row with
do-nothing-on-conflict semantics, and retries the lookup over the fetched
listing — returning the id on a hit, and surfacing the original upstream
error with code 1 and the mkdir message when the directory is still absent. -/
theorem c6_create_directory_duplicate (u : Upstream) (db : Db) (p : Int) (n : String)
    (hcode : (u.mkdir p n).code = 1) :
    (∀ d, find_file db p n = some d → d.is_folder = true →
      create_directory u db p n = .ok (d.file_id, db) ∧
      ∃ r ∈ db, r.parent_id = p ∧ r.name = n ∧ r.is_dir = true ∧ r.file_id = d.file_id) ∧
    ((find_file db p n = none ∨ (∃ d, find_file db p n = some d ∧ d.is_folder = false)) →
      ∀ db2, insertListingIgnore db p (fetch_files_from_api u p) = .ok db2 →
        (∀ e, (fetch_files_from_api u p).find? (fun f => f.filename == n && f.is_folder) = some e →
          create_directory u db p n = .ok (e.file_id, db2)) ∧
        ((fetch_files_from_api u p).find? (fun f => f.filename == n && f.is_folder) = none →
          create_directory u db p n = .error (.pan123Api 1 (u.mkdir p n).message))) := by
  have hneq : ((u.mkdir p n).code == 0) = false := by rw [hcode]; rfl
  have heq1 : ((u.mkdir p n).code == 1) = true := by rw [hcode]; rfl
  constructor
  · intro d hfind0 hfold
    have hfind := hfind0
    rw [find_file_eq] at hfind
    cases hch : dbFindChild db p n with
    | none => rw [hch] at hfind; simp at hfind
    | some r0 =>
      rw [hch] at hfind
      simp only [Option.map_some', Option.some.injEq] at hfind
      have hdir : r0.is_dir = true := by
        by_contra hnd
        have hft : d.file_type = 0 := by
          rw [← hfind]
          simp [modelToInfo, Bool.eq_false_iff.mpr hnd]
        rw [FileInfo.is_folder, hft] at hfold
        simp at hfold
      have hcached : dbFindDirChild db p n = some r0 := dbFindDirChild_of_child hch hdir
      have hch2 : db.find? (fun r : Model => r.parent_id == p && r.name == n) = some r0 := hch
      have hq0 := find?_some_pred (fun r : Model => r.parent_id == p && r.name == n) db r0 hch2
      obtain ⟨hp0, hn0⟩ : r0.parent_id = p ∧ r0.name = n := by simpa using hq0
      have hrec : mkdirDuplicateReconcile u db p n = .ok (some (d.file_id, db)) := by
        unfold mkdirDuplicateReconcile
        rw [hfind0]
        simp [hfold, hcached]
      constructor
      · unfold create_directory
        simp [hneq, heq1, hrec]
      · exact ⟨r0, List.mem_of_find?_eq_some hch2, hp0, hn0, hdir, by rw [← hfind]; rfl⟩
  · intro hyp db2 hins
    constructor
    · intro e he
      have hrec : mkdirDuplicateReconcile u db p n = .ok (some (e.file_id, db2)) := by
        unfold mkdirDuplicateReconcile
        rcases hyp with hnone | ⟨d, hsome, hfoldf⟩
        · rw [hnone]
          simp [hins, he]
        · rw [hsome]
          simp [hfoldf, hins, he]
      unfold create_directory
      simp [hneq, heq1, hrec]
    · intro hnonef
      have hrec : mkdirDuplicateReconcile u db p n = .ok none := by
        unfold mkdirDuplicateReconcile
        rcases hyp with hnone | ⟨d, hsome, hfoldf⟩
        · rw [hnone]
          simp [hins, hnonef]
        · rw [hsome]
          simp [hfoldf, hins, hnonef]
      unfold create_directory
      simp [hneq, heq1, hrec, hcode]

/-- C6 witness: the theorem applied at concrete states — once with the missing
directory already cached (its id 5 is returned with no state change), and once
with an empty index and an empty upstream listing (the original code-1 error
is surfaced). -/
theorem c6_witness :
    create_directory exUpstreamDupEmpty exDbDirA 0 "a" = .ok (5, exDbDirA) ∧
    create_directory exUpstreamDupEmpty [] 0 "a" = .error (.pan123Api 1 "dup") :=
  ⟨((c6_create_directory_duplicate exUpstreamDupEmpty exDbDirA 0 "a" rfl).1
      { file_id := 5, filename := "a", file_type := 1, size := 0, parent_file_id := 0, trashed := 0 }
      rfl rfl).1,
   ((c6_create_directory_duplicate exUpstreamDupEmpty [] 0 "a" rfl).2
      (Or.inl rfl) [] rfl).2 rfl⟩

/- ————————————————————————————————————————————————————————————————
   C7: ensure_path idempotence (amended)
   ———————————————————————————————————————————————————————————————— -/

theorem create_directory_ok_shape (u : Upstream) (db : Db) (p : Int) (n : String)
    (h0 : (u.mkdir p n).code = 0) (nid : Int) (db2 : Db)
    (hc : create_directory u db p n = .ok (nid, db2)) :
    db2 = db ++ [{ file_id := nid, parent_id := p, name := n
                   is_dir := true, size := 0, etag := none }] := by
  unfold create_directory at hc
  split at hc
  case isFalse hneg => exact absurd (by rw [h0]; rfl) hneg
  case isTrue hpos =>
    split at hc
    case h_2 => exact Except.noConfusion hc
    case h_1 data hdata =>
      split at hc
      case h_1 e herr => exact Except.noConfusion hc
      case h_2 db3 hok =>
        injection hc with hc1
        simp only [Prod.mk.injEq] at hc1
        obtain ⟨hid, hdb3⟩ := hc1
        unfold dbInsert at hok
        split at hok
        case isTrue => exact Except.noConfusion hok
        case isFalse =>
          split at hok
          case isTrue => exact Except.noConfusion hok
          case isFalse =>
            injection hok with hok1
            rw [← hdb3, ← hok1, hid]

theorem ensurePathWalk_resolves (u : Upstream) (hmk : ∀ p n, (u.mkdir p n).code = 0) :
    ∀ (parts : List String) (cur : Int) (db : Db) (k : Nat) (id : Int) (db' : Db) (k' : Nat),
      ensurePathWalk u cur db k parts = .ok (id, db', k') →
      (∃ ext, db' = db ++ ext) ∧ findPathIdFrom db' cur parts = some id := by
  intro parts
  induction parts with
  | nil =>
    intro cur db k id db' k' h
    unfold ensurePathWalk at h
    injection h with h1
    simp only [Prod.mk.injEq] at h1
    obtain ⟨hcur, hdb, hk⟩ := h1
    refine ⟨⟨[], by rw [← hdb]; simp⟩, ?_⟩
    unfold findPathIdFrom
    rw [hcur]
  | cons part rest ih =>
    intro cur db k id db' k' h
    unfold ensurePathWalk at h
    cases hn : dbFindDirChild db cur part with
    | some node =>
      rw [hn] at h
      obtain ⟨⟨ext, hext⟩, hfind⟩ := ih node.file_id db k id db' k' h
      refine ⟨⟨ext, hext⟩, ?_⟩
      have hn2 : dbFindDirChild db' cur part = some node := by
        unfold dbFindDirChild at hn ⊢
        rw [hext]
        exact find?_append_some _ _ hn
      unfold findPathIdFrom
      rw [hn2]
      exact hfind
    | none =>
      rw [hn] at h
      cases hc : create_directory u db cur part with
      | error e => rw [hc] at h; exact Except.noConfusion h
      | ok pr =>
        rw [hc] at h
        obtain ⟨nid, db2⟩ := pr
        have hdb2 := create_directory_ok_shape u db cur part (hmk cur part) nid db2 hc
        obtain ⟨⟨ext, hext⟩, hfind⟩ := ih nid db2 (k + 1) id db' k' h
        refine ⟨⟨{ file_id := nid, parent_id := cur, name := part
                   is_dir := true, size := 0, etag := none } :: ext, ?_⟩, ?_⟩
        · rw [hext, hdb2, List.append_assoc]
          rfl
        · have hrow : dbFindDirChild db' cur part
              = some { file_id := nid, parent_id := cur, name := part
                       is_dir := true, size := 0, etag := none } := by
            unfold dbFindDirChild at hn ⊢
            rw [hext, hdb2, List.append_assoc]
            rw [find?_append_none _ _ hn]
            exact List.find?_cons_of_pos _ (by simp)
          unfold findPathIdFrom
          rw [hrow]
          exact hfind

/-- C7 amended: for every path, if `ensure_path` succeeds and every upstream
mkdir it issued succeeded (code 0 — the duplicate-name fallback was not
taken), then the immediately repeated `ensure_path` on the resulting state
returns the same id, leaves the index unchanged, and issues zero mkdir
requests, resolving entirely from the index. (Without the proviso the claim
fails: see the counterexample, where the fallback's conflict-ignoring insert
skips the resolved row, so the second call mkdirs again.) -/
theorem c7_ensure_path_idempotent (u : Upstream) (db : Db) (path : String)
    (id : Int) (db' : Db) (k : Nat)
    (hmk : ∀ p n, (u.mkdir p n).code = 0)
    (h : ensure_path u db path = .ok (id, db', k)) :
    ensure_path u db' path = .ok (id, db', 0) := by
  unfold ensure_path at h ⊢
  cases hf : find_path_id db path with
  | some i =>
    rw [hf] at h
    injection h with h1
    simp only [Prod.mk.injEq] at h1
    obtain ⟨hid, hdb, hk⟩ := h1
    rw [← hdb, hf, hid]
  | none =>
    rw [hf] at h
    obtain ⟨⟨ext, hext⟩, hfind⟩ :=
      ensurePathWalk_resolves u hmk (pathParts path) 0 db 0 id db' k h
    have hf2 : find_path_id db' path = some id := hfind
    rw [hf2]

/-- C7 witness: the amended theorem applied to a concrete first call that
creates /a/b from an empty index (two mkdirs), after which the repeated call
returns the same id 2 with no mkdir. -/
theorem c7_witness :
    ensure_path exUpstreamOk exDbCreated "/a/b" = .ok (2, exDbCreated, 0) :=
  c7_ensure_path_idempotent exUpstreamOk [] "/a/b" 2 exDbCreated 2 (fun _ _ => rfl) rfl

/- ————————————————————————————————————————————————————————————————
   C10: move_files with an empty id list
   ———————————————————————————————————————————————————————————————— -/

/-- C10: `move_files` with an empty file id list returns success immediately,
issues zero upstream HTTP requests, and leaves every index row unchanged,
for every move envelope, index state and target parent. -/
theorem c10_move_files_empty (moveResp : Envelope) (db : Db) (to_parent_id : Int) :
    move_files moveResp db [] to_parent_id = .ok (db, 0) := rfl

end ResticPan


